import Mathlib

/-!
Shallow embedding of the retrieval-augmented conversation pipeline of the
catchAI document-copilot repository, and verification of its specification
claims.

Conventions of the embedding:
* Python floats are modelled as rationals (`ℚ`); the claims are about the
  arithmetic formulas and comparisons, not about floating-point rounding.
* The external embedding service and the external vector index are opaque
  collaborators.  A similarity search (`VectorStore.search`) therefore enters
  the model as its *result*: a list of `(document, distance)` pairs; the code
  downstream of that call is embedded verbatim.  Within one query the index
  state is fixed (single-writer assumption of the design), so the two
  searches that `search_documents` triggers for the same query and `k`
  return the same result list.
* Python exceptions are modelled with `Except String`; a raised exception is
  `Except.error`, a normal return is `Except.ok`.
* Wall-clock values (`datetime.now()`, `time.time()`) are threaded in as
  explicit parameters or fixed to `0` where no claim depends on them.
-/

/-- Value stored in a Python metadata dict: the dicts in this code base hold
strings and ints only. -/
inductive MetaVal where
  | str (s : String)
  | int (n : Nat)
deriving DecidableEq, Repr

/-- A Python `dict` used as chunk/document metadata: association list,
first binding of a key wins on lookup. -/
abbrev Metadata := List (String × MetaVal)

/-- Python `d.get(k)` (`None` when absent). -/
def Metadata.lookup (m : Metadata) (k : String) : Option MetaVal :=
  (m.find? (fun p => p.1 == k)).map (·.2)

/-- Python `d.get(k, default_str)`: the stored string, or the default when the key
is absent (all keys read this way hold strings in the source). -/
def Metadata.getStr (m : Metadata) (k : String) (dflt : String) : String :=
  match m.lookup k with
  | some (MetaVal.str s) => s
  | some (MetaVal.int _) => dflt
  | none => dflt

/-- Python `d.get(k, default_int)` for integer-valued keys. -/
def Metadata.getInt (m : Metadata) (k : String) (dflt : Nat) : Nat :=
  match m.lookup k with
  | some (MetaVal.int n) => n
  | some (MetaVal.str _) => dflt
  | none => dflt

/-- Python `{**d, k: v}` — dict update: the new binding shadows an old one. -/
def Metadata.set (m : Metadata) (k : String) (v : MetaVal) : Metadata :=
  (k, v) :: m.filter (fun p => p.1 ≠ k)

/-- The `DocumentType` enum of `models/__init__.py`. -/
inductive DocumentType where
  | pdf
  | txt
  | docx
deriving DecidableEq, Repr

/-- Value tag `.value` of the enum members. -/
def DocumentType.value : DocumentType → String
  | .pdf => "pdf"
  | .txt => "txt"
  | .docx => "docx"

/-- The `Document` dataclass (`models/__init__.py`).  `uploaded_at` is an opaque
timestamp. -/
structure Document where
  id : String
  filename : String
  file_type : DocumentType
  size_bytes : Nat
  uploaded_at : Nat
  content : Option String := none
  summary : Option String := none
  topics : List String := []
deriving DecidableEq, Repr

/-- The `DocumentChunk` dataclass (`models/__init__.py`). -/
structure DocumentChunk where
  id : String
  document_id : String
  content : String
  metadata : Metadata
  embedding : Option (List ℚ) := none
deriving DecidableEq, Repr

/-- LangChain `Document` (page content plus metadata), the unit the vector
store returns from a search. -/
structure LCDocument where
  page_content : String
  metadata : Metadata
deriving DecidableEq, Repr

/-- The `QueryResult` dataclass (`models/__init__.py`). -/
structure QueryResult where
  answer : String
  sources : List DocumentChunk
  confidence : ℚ
  processing_time : ℚ
deriving DecidableEq, Repr

/-- A search outcome: the list of `(chunk document, raw distance)` pairs the
vector index returned for one query. -/
abbrev SearchResults := List (LCDocument × ℚ)

/-- Sentinel returned by `get_relevant_context` when no chunk passes the
similarity filter (`vector_store.py:95`). -/
def noContextSentinel : String := "No relevant context found in the documents."

/-- The chunk texts that survive the similarity filter of
`VectorStore.get_relevant_context` (`vector_store.py:87-92`): keep
`doc.page_content` whenever `1 - score ≥ min_score`. -/
def relevantChunks (results : SearchResults) (min_score : ℚ) : List String :=
  (results.filter (fun p => 1 - p.2 ≥ min_score)).map (·.1.page_content)

/-- Model of `VectorStore.get_relevant_context` (`vector_store.py:82-99`), downstream
of the search call: filter by similarity `1 - score`, return the sentinel if
nothing survives, else join the survivors with the section separator. -/
def get_relevant_context (results : SearchResults) (min_score : ℚ) : String :=
  let chunks := relevantChunks results min_score
  if chunks.isEmpty then
    noContextSentinel
  else
    String.intercalate "\n\n--- Document Section ---\n\n" chunks

/-- Default `min_score` of `get_relevant_context` (0.7). -/
def defaultMinScore : ℚ := 7 / 10

/-- Confidence computed by `SemanticSearchEngine.search_documents`
(`vector_store.py:178-183`): `max(0, 1 - average distance)` over the whole
result list, `0.0` when the list is empty. -/
def searchConfidence (results : SearchResults) : ℚ :=
  if results.isEmpty then 0
  else max 0 (1 - (results.map (·.2)).sum / results.length)

/-- The `DocumentChunk` rebuilt from one search hit
(`vector_store.py:169-176`). -/
def chunkOfHit (doc : LCDocument) : DocumentChunk :=
  { id := doc.metadata.getStr "chunk_id" ""
    document_id := doc.metadata.getStr "document_id" ""
    content := doc.page_content
    metadata := doc.metadata }

/-- Model of `SemanticSearchEngine.search_documents` (`vector_store.py:154-195`),
downstream of the index call: rebuild the source chunks from every hit,
compute the confidence over the unfiltered hit list, and assemble the answer
with `get_relevant_context` at its default threshold.  `processing_time` is
wall-clock and fixed to `0` in the model. -/
def search_documents (results : SearchResults) : QueryResult :=
  { answer := get_relevant_context results defaultMinScore
    sources := results.map (fun p => chunkOfHit p.1)
    confidence := searchConfidence results
    processing_time := 0 }

/-- The `ChatMessage` dataclass (`models/__init__.py`); the timestamp is an
opaque clock value. -/
structure ChatMessage where
  role : String
  content : String
  timestamp : Nat
  sources : List String
deriving DecidableEq, Repr

/-- Mutable state of `ConversationEngine` (`llm_engine.py:29-30`): the
rolling history and the active document list. -/
structure EngineState where
  conversation_history : List ChatMessage
  documents : List Document
deriving DecidableEq, Repr

/-- A role-tagged message sent to the LLM (LangChain `SystemMessage` /
`HumanMessage` / `AIMessage`). -/
inductive LCMessage where
  | system (content : String)
  | human (content : String)
  | ai (content : String)
deriving DecidableEq, Repr

/-- The fixed system prompt of `ConversationEngine` (`llm_engine.py:33-53`). -/
def systemPrompt : String :=
"Eres un asistente de IA especializado en análisis de documentos llamado CatchAI Document Copilot. \n\nTu objetivo es ayudar a los usuarios a entender, analizar y extraer información de los documentos que han subido.\n\nINSTRUCCIONES:\n1. Responde SIEMPRE en español de manera clara y estructurada\n2. Basa tus respuestas únicamente en la información contenida en los documentos proporcionados\n3. Si no encuentras información relevante en los documentos, indícalo claramente\n4. Proporciona citas específicas cuando sea posible (nombre del documento, sección, etc.)\n5. Si te piden comparar documentos, hazlo de manera organizada y clara\n6. Para resúmenes, incluye los puntos más importantes de manera jerárquica\n7. Si detectas información contradictoria entre documentos, menciona esta discrepancia\n\nCAPACIDADES ESPECIALES:\n- Análisis de contenido y extracción de información clave\n- Comparación entre múltiples documentos\n- Generación de resúmenes estructurados\n- Identificación de temas y patrones\n- Respuesta a preguntas específicas sobre el contenido\n\nMantén un tono profesional pero amigable. Si no estás seguro de algo, admítelo abiertamente."

/-- Model of `ConversationEngine.add_message` (`llm_engine.py:67-75`): append a
message; a `None` source list becomes `[]`. -/
def add_message (st : EngineState) (role content : String)
    (sources : Option (List String)) (now : Nat) : EngineState :=
  { st with conversation_history :=
      st.conversation_history ++ [⟨role, content, now, sources.getD []⟩] }

/-- Source-citation strings built by `ConversationEngine.get_relevant_context`
(`llm_engine.py:82-86`): one `"<filename> (Sección <chunk_index + 1>)"` per
source chunk. -/
def citeSources (chunks : List DocumentChunk) : List String :=
  chunks.map (fun chunk =>
    chunk.metadata.getStr "filename" "Unknown Document"
      ++ " (Sección " ++ toString (chunk.metadata.getInt "chunk_index" 0 + 1) ++ ")")

/-- Model of `ConversationEngine.get_relevant_context` (`llm_engine.py:77-88`): run
the semantic search and pair its answer with the citation strings. -/
def engineRelevantContext (results : SearchResults) : String × List String :=
  let search_result := search_documents results
  (search_result.answer, citeSources search_result.sources)

/-- The context-augmented user turn of `generate_response` when relevant
context was found (`llm_engine.py:110-117`). -/
def queryWithContext (context user_query : String) : String :=
  "\nCONTEXTO RELEVANTE DE LOS DOCUMENTOS:\n" ++ context
    ++ "\n\nPREGUNTA DEL USUARIO:\n" ++ user_query
    ++ "\n\nPor favor, responde a la pregunta basándote en la información del contexto proporcionado."

/-- The user turn of `generate_response` when no relevant context was found
(`llm_engine.py:119-125`). -/
def queryNoContext (user_query : String) : String :=
  "\nNo se encontró contexto relevante en los documentos cargados para responder a esta pregunta."
    ++ "\n\nPREGUNTA DEL USUARIO:\n" ++ user_query
    ++ "\n\nPor favor, indica que no hay información suficiente en los documentos para responder esta pregunta."

/-- The message sequence `generate_response` assembles for the LLM
(`llm_engine.py:96-127`): the system prompt, the last six history entries
(`history[-6:]`), and one human turn that carries the context when it is
non-empty and not the sentinel. -/
def build_messages (history : List ChatMessage) (context : String)
    (user_query : String) : List LCMessage :=
  let recent_history := history.drop (history.length - 6)
  [LCMessage.system systemPrompt]
    ++ recent_history.map (fun msg =>
        if msg.role == "user" then LCMessage.human msg.content
        else LCMessage.ai msg.content)
    ++ [LCMessage.human
        (if context != "" && context != noContextSentinel then
          queryWithContext context user_query
        else
          queryNoContext user_query)]

/-- Model of `ConversationEngine.generate_response` (`llm_engine.py:90-134`).  The
two external calls enter as oracles: `retrieval` is the outcome of the
semantic search for this query, `llm` the outcome of the LLM call on a
message sequence.  Only the LLM call sits inside a `try` in the source, so
a retrieval failure propagates (`Except.error`), while an LLM failure is
turned into the error-descriptive answer with empty sources. -/
def generate_response (history : List ChatMessage)
    (retrieval : Except String SearchResults)
    (llm : List LCMessage → Except String String)
    (user_query : String) : Except String (String × List String) :=
  match retrieval with
  | .error e => .error e
  | .ok results =>
    let (context, sources) := engineRelevantContext results
    let messages := build_messages history context user_query
    match llm messages with
    | .ok content => .ok (content, sources)
    | .error e => .ok ("Error al generar respuesta: " ++ e, [])

/-- Model of `ConversationEngine.chat` (`llm_engine.py:136-147`): record the user
message, generate the response, record the assistant message.  When
`generate_response` propagates an exception the history mutation made
before the call persists, so the result is the error paired with the state
that already holds the user message. -/
def chat (st : EngineState) (retrieval : Except String SearchResults)
    (llm : List LCMessage → Except String String)
    (user_message : String) (now : Nat) :
    Except String (String × List String) × EngineState :=
  let st1 := add_message st "user" user_message none now
  match generate_response st1.conversation_history retrieval llm user_message with
  | .ok (response, sources) =>
      (.ok (response, sources), add_message st1 "assistant" response (some sources) now)
  | .error e => (.error e, st1)

/-- Model of `ConversationEngine.clear_conversation` (`llm_engine.py:191-193`). -/
def clear_conversation (st : EngineState) : EngineState :=
  { st with conversation_history := [] }

/-- The statistics dict of `get_conversation_summary`. -/
structure ConversationSummary where
  total_messages : Nat
  user_messages : Nat
  assistant_messages : Nat
  documents_loaded : Nat
  document_names : List String
deriving DecidableEq, Repr

/-- Model of `ConversationEngine.get_conversation_summary` (`llm_engine.py:195-203`):
counts over the full, unwindowed history. -/
def get_conversation_summary (st : EngineState) : ConversationSummary :=
  { total_messages := st.conversation_history.length
    user_messages := (st.conversation_history.filter (fun m => m.role == "user")).length
    assistant_messages := (st.conversation_history.filter (fun m => m.role == "assistant")).length
    documents_loaded := st.documents.length
    document_names := st.documents.map (·.filename) }

/-- One record held by the external vector collection: the id the store
keeps it under, the chunk text, and its metadata. -/
structure StoreEntry where
  store_id : Nat
  content : String
  metadata : Metadata
deriving DecidableEq, Repr

/-- State of the persistent vector collection.  `next_id` is the supply of
fresh store ids (freshly generated ids never collide with stored ones). -/
structure VectorStoreState where
  entries : List StoreEntry
  next_id : Nat
deriving DecidableEq, Repr

/-- The external `Chroma.add_documents(documents)` call issued by
`VectorStore.add_chunks` (`vector_store.py:64`).  The source passes no
`ids` argument, so the store assigns each incoming document a fresh id of
its own (LangChain's Chroma generates a fresh UUID per document when ids
are omitted) and upserts under those fresh ids; fresh-id generation is
modelled by the counter `next_id`.  Because the assigned ids are fresh, the
call always appends `docs.length` new entries. -/
def addDocumentsToStore (st : VectorStoreState) (docs : List LCDocument) :
    VectorStoreState :=
  { entries := st.entries ++ docs.enum.map (fun p =>
      ⟨st.next_id + p.1, p.2.page_content, p.2.metadata⟩)
    next_id := st.next_id + docs.length }

/-- The LangChain document `add_chunks` builds from one `DocumentChunk`
(`vector_store.py:53-60`): the chunk text plus its metadata extended with
`chunk_id` and `document_id`. -/
def chunkToLCDocument (chunk : DocumentChunk) : LCDocument :=
  { page_content := chunk.content
    metadata := (chunk.metadata.set "chunk_id" (MetaVal.str chunk.id)).set
      "document_id" (MetaVal.str chunk.document_id) }

/-- Model of `VectorStore.add_chunks` (`vector_store.py:45-64`): return unchanged on
an empty list, otherwise hand the prepared documents to the store. -/
def add_chunks (st : VectorStoreState) (chunks : List DocumentChunk) :
    VectorStoreState :=
  if chunks.isEmpty then st
  else addDocumentsToStore st (chunks.map chunkToLCDocument)

/-- Model of `SemanticSearchEngine.index_chunks` (`vector_store.py:150-152`). -/
def index_chunks (st : VectorStoreState) (chunks : List DocumentChunk) :
    VectorStoreState :=
  add_chunks st chunks

/-- Model of `VectorStore.remove_document` (`vector_store.py:101-110`): fetch the ids
of every entry whose metadata `document_id` matches and delete them. -/
def storeRemoveDocument (st : VectorStoreState) (document_id : String) :
    VectorStoreState :=
  { st with entries := st.entries.filter (fun e =>
      e.metadata.lookup "document_id" ≠ some (MetaVal.str document_id)) }

/-- Model of `DocumentProcessor.create_chunks` (`document_processor.py:93-127`).
The third-party splitter (`RecursiveCharacterTextSplitter.split_documents`)
is an external collaborator and enters as the function `split` from the
document text to the list of chunk texts (the splitter copies the parent
document's metadata onto every piece).  A document with `None` or empty
content is returned as the empty list by the `if not document.content`
guard; otherwise each split piece becomes a `DocumentChunk` with id
`f"{document.id}_{i}"` and metadata extended with its index and the total
count.  `chunkAt` is the per-piece constructor (the loop body of
`document_processor.py:113-125`). -/
def chunkAt (document : Document) (total : Nat) (p : Nat × String) :
    DocumentChunk :=
  { id := document.id ++ "_" ++ toString p.1
    document_id := document.id
    content := p.2
    metadata := Metadata.set (Metadata.set
      [("document_id", MetaVal.str document.id),
       ("filename", MetaVal.str document.filename),
       ("file_type", MetaVal.str document.file_type.value)]
      "chunk_index" (MetaVal.int p.1)) "total_chunks" (MetaVal.int total) }

/-- Model of `DocumentProcessor.create_chunks`, continued: handle the emptiness
guard and enumerate the split pieces through `chunkAt`. -/
def create_chunks (split : String → List String) (document : Document) :
    List DocumentChunk :=
  match document.content with
  | none => []
  | some content =>
    if content == "" then []
    else
      let chunks := split content
      chunks.enum.map (chunkAt document chunks.length)

/-- Model of `DocumentManager.remove_document` (`document_processor.py:184-190`):
delete the first document whose id matches and return `true`; return
`false` leaving the list unchanged when none matches. -/
def managerRemoveDocument : List Document → String → Bool × List Document
  | [], _ => (false, [])
  | doc :: rest, doc_id =>
    if doc.id == doc_id then (true, rest)
    else
      let r := managerRemoveDocument rest doc_id
      (r.1, doc :: r.2)

/-- Model of `ConversationEngine.add_documents` (`llm_engine.py:55-65`): replace the
engine's document list and index every document's chunks — the vector index
is *not* cleared first, the chunks are added on top of whatever the store
already holds. -/
def engineAddDocuments (split : String → List String) (engine : EngineState)
    (store : VectorStoreState) (documents : List Document) :
    EngineState × VectorStoreState :=
  ({ engine with documents := documents },
   documents.foldl (fun s doc => index_chunks s (create_chunks split doc)) store)

/-- Whole-session state driven by the UI: the manager's document list, the
conversation engine, and the vector store. -/
structure AppState where
  manager_documents : List Document
  engine : EngineState
  store : VectorStoreState
deriving DecidableEq, Repr

/-- The document-removal flow `remove_document` of the frontend
(`app.py:224-236`): ask the manager to drop the id; when it succeeds, clear
the conversation and re-feed the remaining documents to the engine (which
re-indexes their chunks on top of the existing store).  No call in this
flow removes the deleted document's chunks from the vector store
(`remove_document_index` / `clear_index` are never invoked). -/
def app_remove_document (split : String → List String) (st : AppState)
    (doc_id : String) : AppState :=
  let r := managerRemoveDocument st.manager_documents doc_id
  if r.1 then
    let engine1 := clear_conversation st.engine
    if r.2.isEmpty then
      { manager_documents := r.2, engine := engine1, store := st.store }
    else
      let es := engineAddDocuments split engine1 st.store r.2
      { manager_documents := r.2, engine := es.1, store := es.2 }
  else
    st

/-! ## Claims -/

/-- A chunk document with empty metadata, used to instantiate claims at
concrete search hits. -/
def exDoc (s : String) : LCDocument := ⟨s, []⟩

/-- C1: if no retrieved chunk reaches the minimum similarity `1 - distance ≥
min_score`, the assembled context is exactly the sentinel string; and the
confidence of `search_documents` is computed independently of the sentinel —
at the concrete hit list `[("some text", distance 1/2)]` the answer is the
sentinel (similarity 1/2 is below the default threshold 7/10) while the
confidence is positive. -/
theorem C1_sentinel_and_confidence_independent :
    (∀ (results : SearchResults) (min_score : ℚ),
        (∀ p ∈ results, 1 - p.2 < min_score) →
        get_relevant_context results min_score = noContextSentinel) ∧
    ((search_documents [(exDoc "some text", 1/2)]).answer = noContextSentinel ∧
      0 < (search_documents [(exDoc "some text", 1/2)]).confidence) := by
  have hfilex : relevantChunks [(exDoc "some text", 1/2)] defaultMinScore = [] := by
    norm_num [relevantChunks, defaultMinScore, List.filter_cons]
  refine ⟨fun results min_score h => ?_, ?_, ?_⟩
  · have hfil : results.filter (fun p => decide (1 - p.2 ≥ min_score)) = [] := by
      rw [List.filter_eq_nil_iff]
      intro a ha
      simpa using not_le.mpr (h a ha)
    simp [get_relevant_context, relevantChunks, hfil]
  · show get_relevant_context [(exDoc "some text", 1/2)] defaultMinScore
        = noContextSentinel
    simp only [get_relevant_context]
    rw [hfilex]
    rfl
  · have hconf : (search_documents [(exDoc "some text", 1/2)]).confidence
        = max 0 (1 - ((1 : ℚ)/2)/1) := by
      simp [search_documents, searchConfidence]
    rw [hconf]
    rw [lt_max_iff]
    right
    norm_num

/-- C2: on a non-empty result list with non-negative raw distances (the
index's distance metric is non-negative), the confidence of
`search_documents` equals `max 0 (1 - average raw distance)` over the whole
unfiltered list, and lies in `[0, 1]`. -/
theorem C2_confidence_formula (results : SearchResults)
    (hne : results ≠ [])
    (hnn : ∀ p ∈ results, 0 ≤ p.2) :
    (search_documents results).confidence
        = max 0 (1 - (results.map (·.2)).sum / results.length) ∧
    0 ≤ (search_documents results).confidence ∧
    (search_documents results).confidence ≤ 1 := by
  have hE : results.isEmpty = false := by
    cases results with
    | nil => exact absurd rfl hne
    | cons a l => rfl
  have hform : (search_documents results).confidence
      = max 0 (1 - (results.map (·.2)).sum / results.length) := by
    simp [search_documents, searchConfidence, hE]
  refine ⟨hform, ?_, ?_⟩
  · rw [hform]; exact le_max_left 0 _
  · rw [hform]
    have hsum : 0 ≤ (results.map (·.2)).sum := by
      apply List.sum_nonneg
      intro x hx
      obtain ⟨p, hp, rfl⟩ := List.mem_map.mp hx
      exact hnn p hp
    have hdiv : 0 ≤ (results.map (·.2)).sum / (results.length : ℚ) :=
      div_nonneg hsum (Nat.cast_nonneg _)
    exact max_le (by norm_num) (by linarith)

/-- Witness for C2 at the concrete hit list
`[("alpha", 1/4), ("beta", 1/2)]`. -/
theorem C2_confidence_formula_witness :
    (search_documents [(exDoc "alpha", 1/4), (exDoc "beta", 1/2)]).confidence
        = max 0 (1 - (([(exDoc "alpha", 1/4), (exDoc "beta", 1/2)] : SearchResults).map
            (·.2)).sum / ([(exDoc "alpha", 1/4), (exDoc "beta", 1/2)] : SearchResults).length) ∧
    0 ≤ (search_documents [(exDoc "alpha", 1/4), (exDoc "beta", 1/2)]).confidence ∧
    (search_documents [(exDoc "alpha", 1/4), (exDoc "beta", 1/2)]).confidence ≤ 1 :=
  C2_confidence_formula [(exDoc "alpha", 1/4), (exDoc "beta", 1/2)]
    (by simp) (by norm_num)

/-- C6: raising the minimum-similarity threshold never adds surviving
chunks — for `t1 ≤ t2` every chunk surviving the filter at `t2` also
survives at `t1`, and the survivor count at `t2` is at most the one at
`t1`. -/
theorem C6_threshold_monotone (results : SearchResults) (t1 t2 : ℚ)
    (h : t1 ≤ t2) :
    (∀ c ∈ relevantChunks results t2, c ∈ relevantChunks results t1) ∧
    (relevantChunks results t2).length ≤ (relevantChunks results t1).length := by
  have hsub : List.Sublist (results.filter (fun p => decide (1 - p.2 ≥ t2)))
      (results.filter (fun p => decide (1 - p.2 ≥ t1))) := by
    apply List.monotone_filter_right
    intro a ha
    simp only [decide_eq_true_eq] at ha ⊢
    exact le_trans h ha
  have hmap : List.Sublist (relevantChunks results t2) (relevantChunks results t1) := by
    simp only [relevantChunks]
    exact hsub.map (fun p => p.1.page_content)
  exact ⟨fun c hc => hmap.subset hc, hmap.length_le⟩

/-- Witness for C6 at the hit list `[("a", 1/4), ("b", 2/5)]` and
thresholds `1/2 ≤ 7/10`. -/
theorem C6_threshold_monotone_witness :
    (∀ c ∈ relevantChunks [(exDoc "a", 1/4), (exDoc "b", 2/5)] (7/10),
        c ∈ relevantChunks [(exDoc "a", 1/4), (exDoc "b", 2/5)] (1/2)) ∧
    (relevantChunks [(exDoc "a", 1/4), (exDoc "b", 2/5)] (7/10)).length
      ≤ (relevantChunks [(exDoc "a", 1/4), (exDoc "b", 2/5)] (1/2)).length :=
  C6_threshold_monotone [(exDoc "a", 1/4), (exDoc "b", 2/5)] (1/2) (7/10)
    (by norm_num)

/-- C10: when the underlying vector search returns no hit, the
`QueryResult` of `search_documents` has confidence exactly `0` and an empty
source list. -/
theorem C10_empty_search_result :
    (search_documents ([] : SearchResults)).confidence = 0 ∧
    (search_documents ([] : SearchResults)).sources = [] :=
  ⟨rfl, rfl⟩

/-- C3 counterexample: the claim says the top-level chat operation never
raises and converts a failed retrieval/index call into a user-visible error
message with empty sources.  At the concrete input — empty engine state,
the retrieval call raising "index unavailable", an LLM oracle that would
answer normally — `chat` propagates the exception instead of returning a
pair: only the LLM call sits inside a `try` in `generate_response`
(`llm_engine.py:130-134`), the retrieval call at `llm_engine.py:93` does
not. -/
theorem C3_counterexample_retrieval_failure_propagates :
    (chat ⟨[], []⟩ (Except.error "index unavailable")
        (fun _ => Except.ok "ok") "hola" 0).1
      = Except.error "index unavailable" := rfl

/-- C3 (amended): a failed LLM call is contained — `chat` returns the
error-descriptive answer with empty sources — but a failed retrieval/index
call propagates out of `chat` as the exception itself. -/
theorem C3_llm_failure_contained_retrieval_failure_propagates
    (st : EngineState) (results : SearchResults) (e : String)
    (q : String) (now : Nat)
    (llm : List LCMessage → Except String String) (e' : String) :
    (chat st (Except.ok results) (fun _ => Except.error e) q now).1
        = Except.ok ("Error al generar respuesta: " ++ e, []) ∧
    (chat st (Except.error e') llm q now).1 = Except.error e' :=
  ⟨rfl, rfl⟩

/-- Witness for the amended C3 at concrete inputs. -/
theorem C3_llm_failure_contained_witness :
    (chat ⟨[], []⟩ (Except.ok []) (fun _ => Except.error "timeout") "hola" 0).1
        = Except.ok ("Error al generar respuesta: " ++ "timeout", []) ∧
    (chat ⟨[], []⟩ (Except.error "down") (fun _ => Except.ok "hi") "hola" 0).1
        = Except.error "down" :=
  C3_llm_failure_contained_retrieval_failure_propagates ⟨[], []⟩ [] "timeout"
    "hola" 0 (fun _ => Except.ok "hi") "down"

/-- C7: with more than six accumulated messages, the sequence built for the
LLM is the system prompt, then exactly the six most recent history entries
(the rest of the history is dropped), then the context-augmented query;
and `get_conversation_summary` still reports over the full history. -/
theorem C7_history_window (st : EngineState) (context q : String)
    (h : 6 < st.conversation_history.length) :
    ∃ dropped : List ChatMessage,
      st.conversation_history
          = dropped
            ++ st.conversation_history.drop (st.conversation_history.length - 6) ∧
      (st.conversation_history.drop (st.conversation_history.length - 6)).length
          = 6 ∧
      build_messages st.conversation_history context q
          = [LCMessage.system systemPrompt]
            ++ (st.conversation_history.drop
                  (st.conversation_history.length - 6)).map
                (fun msg => if msg.role == "user" then LCMessage.human msg.content
                  else LCMessage.ai msg.content)
            ++ [LCMessage.human
                (if context != "" && context != noContextSentinel then
                  queryWithContext context q
                else
                  queryNoContext q)] ∧
      (get_conversation_summary st).total_messages
          = st.conversation_history.length := by
  refine ⟨st.conversation_history.take (st.conversation_history.length - 6),
    ?_, ?_, rfl, rfl⟩
  · exact (List.take_append_drop _ _).symm
  · rw [List.length_drop]
    exact Nat.sub_sub_self (le_of_lt h)

/-- Witness for C7 at a concrete seven-message history. -/
theorem C7_history_window_witness :
    ∃ dropped : List ChatMessage,
      (⟨(List.range 7).map (fun i => ⟨"user", "m" ++ toString i, i, []⟩), []⟩ :
          EngineState).conversation_history
          = dropped
            ++ (⟨(List.range 7).map (fun i => ⟨"user", "m" ++ toString i, i, []⟩), []⟩ :
                EngineState).conversation_history.drop
                ((⟨(List.range 7).map (fun i => ⟨"user", "m" ++ toString i, i, []⟩), []⟩ :
                    EngineState).conversation_history.length - 6) ∧
      ((⟨(List.range 7).map (fun i => ⟨"user", "m" ++ toString i, i, []⟩), []⟩ :
          EngineState).conversation_history.drop
          ((⟨(List.range 7).map (fun i => ⟨"user", "m" ++ toString i, i, []⟩), []⟩ :
              EngineState).conversation_history.length - 6)).length = 6 ∧
      build_messages (⟨(List.range 7).map (fun i => ⟨"user", "m" ++ toString i, i, []⟩), []⟩ :
          EngineState).conversation_history "ctx" "hola"
          = [LCMessage.system systemPrompt]
            ++ ((⟨(List.range 7).map (fun i => ⟨"user", "m" ++ toString i, i, []⟩), []⟩ :
                  EngineState).conversation_history.drop
                  ((⟨(List.range 7).map (fun i => ⟨"user", "m" ++ toString i, i, []⟩), []⟩ :
                      EngineState).conversation_history.length - 6)).map
                (fun msg => if msg.role == "user" then LCMessage.human msg.content
                  else LCMessage.ai msg.content)
            ++ [LCMessage.human
                (if "ctx" != "" && "ctx" != noContextSentinel then
                  queryWithContext "ctx" "hola"
                else
                  queryNoContext "hola")] ∧
      (get_conversation_summary
          ⟨(List.range 7).map (fun i => ⟨"user", "m" ++ toString i, i, []⟩), []⟩).total_messages
          = (⟨(List.range 7).map (fun i => ⟨"user", "m" ++ toString i, i, []⟩), []⟩ :
              EngineState).conversation_history.length :=
  C7_history_window
    ⟨(List.range 7).map (fun i => ⟨"user", "m" ++ toString i, i, []⟩), []⟩
    "ctx" "hola" (by simp)

/-- C8: one chat turn always leaves the user's message appended to the
history right after the previous transcript — also when response
generation fails and the exception propagates (the user message is recorded
before `generate_response` is called, `llm_engine.py:138-142`). -/
theorem C8_user_message_always_recorded (st : EngineState)
    (retrieval : Except String SearchResults)
    (llm : List LCMessage → Except String String)
    (user_message : String) (now : Nat) :
    ∃ rest : List ChatMessage,
      ((chat st retrieval llm user_message now).2).conversation_history
        = st.conversation_history ++ [⟨"user", user_message, now, []⟩] ++ rest := by
  unfold chat
  simp only [add_message]
  cases hgr : generate_response
      (st.conversation_history ++ [⟨"user", user_message, now, []⟩])
      retrieval llm user_message with
  | ok val =>
    obtain ⟨response, sources⟩ := val
    refine ⟨[⟨"assistant", response, now, sources⟩], ?_⟩
    simp [hgr]
  | error e =>
    refine ⟨[], ?_⟩
    simp [hgr]

/-- Witness for C8 at concrete inputs (a turn whose retrieval fails). -/
theorem C8_user_message_always_recorded_witness :
    ∃ rest : List ChatMessage,
      ((chat ⟨[], []⟩ (Except.error "down") (fun _ => Except.ok "hi") "hola" 3).2).conversation_history
        = (⟨[], []⟩ : EngineState).conversation_history
          ++ [⟨"user", "hola", 3, []⟩] ++ rest :=
  C8_user_message_always_recorded ⟨[], []⟩ (Except.error "down")
    (fun _ => Except.ok "hi") "hola" 3

/-- A concrete chunk used to exercise `add_chunks`. -/
def exChunk : DocumentChunk :=
  { id := "doc1_0", document_id := "doc1", content := "hello",
    metadata := [("filename", MetaVal.str "a.txt")] }

/-- C4 counterexample: re-adding the chunk `exChunk` (id `"doc1_0"`) to a
store that already holds it leaves two entries carrying that chunk id —
`add_chunks` passes no ids to the store (`vector_store.py:64`), so the
store files the chunk under a fresh id each time instead of upserting on
the chunk id.  Hence adding a list twice does not equal adding it once. -/
theorem C4_counterexample_readd_duplicates :
    (add_chunks (add_chunks ⟨[], 0⟩ [exChunk]) [exChunk]).entries.length = 2 ∧
    (add_chunks ⟨[], 0⟩ [exChunk]).entries.length = 1 ∧
    ((add_chunks (add_chunks ⟨[], 0⟩ [exChunk]) [exChunk]).entries.filter
        (fun e => decide (e.metadata.lookup "chunk_id"
          = some (MetaVal.str "doc1_0")))).length = 2 := by
  refine ⟨rfl, rfl, ?_⟩
  decide

/-- C4 (amended): `add_chunks` with an empty chunk list is a no-op, but a
non-empty add always appends one store entry per chunk — the store assigns
fresh ids since none are passed — so re-adding an already-stored chunk id
duplicates it and adding a list twice grows the store twice. -/
theorem C4_add_chunks_appends :
    (∀ st : VectorStoreState, add_chunks st [] = st) ∧
    (∀ (st : VectorStoreState) (chunks : List DocumentChunk),
      (add_chunks st chunks).entries.length
        = st.entries.length + chunks.length) := by
  refine ⟨fun st => rfl, fun st chunks => ?_⟩
  cases chunks with
  | nil => simp [add_chunks]
  | cons c cs =>
    simp [add_chunks, addDocumentsToStore, List.enum_length]

/-- C5: for every document and every outcome of the external text splitter,
`create_chunks` yields chunks whose ids are the composite
`"<document.id>_<i>"`, whose `chunk_index` metadata runs exactly over
`0 .. total_chunks - 1`, and whose `total_chunks` metadata equals the
length of the produced sequence; a document with absent or empty content
yields the empty sequence. -/
theorem C5_create_chunks_indexing (split : String → List String)
    (document : Document) :
    ((document.content = none ∨ document.content = some "") →
        create_chunks split document = []) ∧
    (∀ i (h : i < (create_chunks split document).length),
      ((create_chunks split document).get ⟨i, h⟩).id
          = document.id ++ "_" ++ toString i ∧
      ((create_chunks split document).get ⟨i, h⟩).metadata.lookup "chunk_index"
          = some (MetaVal.int i) ∧
      ((create_chunks split document).get ⟨i, h⟩).metadata.lookup "total_chunks"
          = some (MetaVal.int (create_chunks split document).length)) := by
  constructor
  · rintro (h | h) <;> simp [create_chunks, h]
  · intro i h
    rcases hc : document.content with _ | content
    · have hnil : create_chunks split document = [] := by
        simp [create_chunks, hc]
      rw [hnil] at h
      exact absurd h (by simp)
    · by_cases hcE : content = ""
      · have hnil : create_chunks split document = [] := by
          simp [create_chunks, hc, hcE]
        rw [hnil] at h
        exact absurd h (by simp)
      · have hform : create_chunks split document
            = (split content).enum.map (chunkAt document (split content).length) := by
          simp [create_chunks, hc, hcE]
        have hlen : (create_chunks split document).length = (split content).length := by
          rw [hform]
          simp [List.enum_length]
        have hi : i < (split content).length := by rwa [hlen] at h
        have hget : (create_chunks split document).get ⟨i, h⟩
            = chunkAt document (split content).length (i, (split content).get ⟨i, hi⟩) := by
          rw [List.get_of_eq hform]
          simp [List.getElem_enum]
        rw [hget, hlen]
        exact ⟨rfl, rfl, rfl⟩

/-- Witness for C5 at a concrete document and splitter. -/
theorem C5_create_chunks_indexing_witness :
    ((some "ab cd" = none ∨ (some "ab cd" : Option String) = some "") →
        create_chunks (fun s => [s.take 3, s.drop 2])
          { id := "d9", filename := "f.txt", file_type := DocumentType.txt,
            size_bytes := 5, uploaded_at := 0, content := some "ab cd" } = []) ∧
    (∀ i (h : i < (create_chunks (fun s => [s.take 3, s.drop 2])
          { id := "d9", filename := "f.txt", file_type := DocumentType.txt,
            size_bytes := 5, uploaded_at := 0, content := some "ab cd" }).length),
      ((create_chunks (fun s => [s.take 3, s.drop 2])
          { id := "d9", filename := "f.txt", file_type := DocumentType.txt,
            size_bytes := 5, uploaded_at := 0, content := some "ab cd" }).get ⟨i, h⟩).id
          = "d9" ++ "_" ++ toString i ∧
      ((create_chunks (fun s => [s.take 3, s.drop 2])
          { id := "d9", filename := "f.txt", file_type := DocumentType.txt,
            size_bytes := 5, uploaded_at := 0, content := some "ab cd" }).get
            ⟨i, h⟩).metadata.lookup "chunk_index" = some (MetaVal.int i) ∧
      ((create_chunks (fun s => [s.take 3, s.drop 2])
          { id := "d9", filename := "f.txt", file_type := DocumentType.txt,
            size_bytes := 5, uploaded_at := 0, content := some "ab cd" }).get
            ⟨i, h⟩).metadata.lookup "total_chunks"
          = some (MetaVal.int (create_chunks (fun s => [s.take 3, s.drop 2])
              { id := "d9", filename := "f.txt", file_type := DocumentType.txt,
                size_bytes := 5, uploaded_at := 0,
                content := some "ab cd" }).length)) :=
  C5_create_chunks_indexing (fun s => [s.take 3, s.drop 2])
    { id := "d9", filename := "f.txt", file_type := DocumentType.txt,
      size_bytes := 5, uploaded_at := 0, content := some "ab cd" }

/-- The document used to exhibit the removal inconsistency. -/
def exDocument : Document :=
  { id := "doc-1", filename := "a.txt", file_type := DocumentType.txt,
    size_bytes := 4, uploaded_at := 0, content := some "hola" }

/-- A splitter that keeps the text whole (one chunk). -/
def exSplit : String → List String := fun s => [s]

/-- Session state in which `exDocument` is the only active document and its
single chunk is indexed. -/
def exAppState : AppState :=
  { manager_documents := [exDocument]
    engine := ⟨[], [exDocument]⟩
    store := index_chunks ⟨[], 0⟩ (create_chunks exSplit exDocument) }

/-- C9: removing an existing document id returns `true` and drops it from
the document list, but its chunks remain in the vector index — the removal
flow never calls `remove_document_index`/`VectorStore.remove_document`
(`app.py:224-236` only invokes the manager's list removal), so after
removing `"doc-1"` the store still holds an entry with metadata
`document_id = "doc-1"`, which the (never-invoked) index removal would have
deleted. -/
theorem C9_removed_document_remains_indexed :
    (managerRemoveDocument [exDocument] "doc-1").1 = true ∧
    (app_remove_document exSplit exAppState "doc-1").manager_documents = [] ∧
    ((app_remove_document exSplit exAppState "doc-1").store.entries.filter
        (fun e => decide (e.metadata.lookup "document_id"
          = some (MetaVal.str "doc-1")))).length = 1 ∧
    (storeRemoveDocument
        (app_remove_document exSplit exAppState "doc-1").store "doc-1").entries
      = [] := by
  refine ⟨rfl, ?_, ?_, ?_⟩ <;> decide
